import Mathlib

/-!
# Verification of the serendipity-draft video-generation pipeline

A shallow embedding of `src/services/geminiService.ts` (data model from
`src/types.ts`).  External generative-model calls are modelled by explicit
response values supplied as arguments (an `Env` record for the orchestrator):
each function computes exactly what the source computes from those responses,
including the emitted progress messages and the outgoing calls it performs.
-/

namespace VideoPipeline

/-- `InspirationFile` from src/types.ts. -/
structure InspirationFile where
  base64 : String
  mimeType : String
  name : String
  description : String
  previewUrl : String
deriving DecidableEq, Repr

/-- `UserInput` from src/types.ts. -/
structure UserInput where
  idea : String
  inspirationImages : List InspirationFile
  inspirationVideos : List InspirationFile
  inspirationAudio : Option InspirationFile
  duration : String
  mood : String
  aspectRatio : String
  audience : String
deriving DecidableEq, Repr

/-- `Script` from src/types.ts. -/
structure Script where
  title : String
  logline : String
  fullScript : String
deriving DecidableEq, Repr

/-! ## Response schemas requested from the text-generation capability -/

/-- One property of a requested JSON response schema: its key and the
`description` string attached to it (type is always STRING here). -/
structure SchemaProperty where
  name : String
  description : String
deriving DecidableEq, Repr

/-- A requested JSON object schema: the declared properties and the
`required` key list. -/
structure ResponseSchema where
  properties : List SchemaProperty
  required : List String
deriving DecidableEq, Repr

/-- The `responseSchema` built inside `getVideoGenerationPrompts`
(src/services/geminiService.ts lines 84-98): `videoPrompt` is always a
property; the spread `...(needsEditPrompt && \x7b keyframeEditPrompt: ... \x7d)`
adds the `keyframeEditPrompt` property exactly when `needsEditPrompt` is
true; the `required` list is the literal `["videoPrompt"]`. -/
def promptsResponseSchema (needsEditPrompt : Bool) : ResponseSchema :=
  { properties :=
      [⟨"videoPrompt", "Prompt for VEO 2.0 video generation."⟩] ++
        (if needsEditPrompt then
          [⟨"keyframeEditPrompt", "Prompt for Nano Banana image editing."⟩]
        else []),
    required := ["videoPrompt"] }

/-! ## ScriptGenerator: `generateScripts` -/

/-- The prompt template literal built at the top of `generateScripts`
(src/services/geminiService.ts lines 11-36). `filter Boolean` on the two
joined inspiration strings drops the empty ones; the audio line mentions
only the audio file's `name`. -/
def buildScriptsPrompt (userInput : UserInput) : String :=
  let imageInspirationText := String.intercalate "\n"
    (userInput.inspirationImages.map
      (fun img => "- Image \"" ++ img.name ++ "\": " ++ img.description))
  let videoInspirationText := String.intercalate "\n"
    (userInput.inspirationVideos.map
      (fun vid => "- Video \"" ++ vid.name ++ "\": " ++ vid.description))
  let inspirationText := String.intercalate "\n"
    ([imageInspirationText, videoInspirationText].filter (fun s => s != ""))
  "\n    You are a creative assistant for a storyteller. Based on the following detailed creative brief, generate 2 distinct script ideas for a short video.\n\n    --- Creative Brief ---\n    Core Idea: \"" ++
  userInput.idea ++
  "\"\n    \n    Fine-Tuning Details:\n    - Desired Mood & Style: " ++
  userInput.mood ++
  "\n    - Target Audience: " ++
  userInput.audience ++
  "\n    - Aspect Ratio: " ++
  userInput.aspectRatio ++
  "\n    - Desired Duration: Approximately " ++
  userInput.duration ++
  " seconds\n\n    User-Provided Inspirations:\n    " ++
  (if inspirationText = "" then "No specific visual or video inspiration provided."
   else inspirationText) ++
  "\n    " ++
  (match userInput.inspirationAudio with
   | some audio =>
       "- The user provided an audio track named \"" ++ audio.name ++
       "\" to set the tone."
   | none => "") ++
  "\n    ---\n\n    For each of the 2 ideas, provide:\n    1. A catchy Title.\n    2. A concise Logline (1-2 sentences).\n    3. A Full Script with scene descriptions and actions, tailored to the specified duration and aspect ratio.\n    "

/-- Outcome of the one text-generation call made by `generateScripts`:
the remote call can reject (`callError`), `JSON.parse(response.text)` can
throw (`parseError`), or parsing succeeds with an optional `scripts`
array (`parsed none` models a response object without a usable `scripts`
field; `jsonResponse.scripts || []` then yields the empty list). -/
inductive ScriptsCallResult where
  | callError (message : String)
  | parseError (message : String)
  | parsed (scripts : Option (List Script))
deriving DecidableEq, Repr

/-- The error message thrown from `generateScripts`'s catch block. -/
def scriptGenErrorMsg : String := "Failed to generate scripts from the idea."

/-- `generateScripts` (src/services/geminiService.ts lines 10-70): builds
the prompt, makes one call, and returns `jsonResponse.scripts || []`; its
try/catch converts any call or parse failure into one error with message
`scriptGenErrorMsg`.  Returns the prompt that was sent together with the
result. -/
def generateScripts (userInput : UserInput) (callResult : ScriptsCallResult) :
    String × Except String (List Script) :=
  (buildScriptsPrompt userInput,
   match callResult with
   | .callError _ => .error scriptGenErrorMsg
   | .parseError _ => .error scriptGenErrorMsg
   | .parsed scripts => .ok (scripts.getD []))

/-! ## PromptDeriver: `getVideoGenerationPrompts` -/

/-- The parsed return value of `getVideoGenerationPrompts`:
`\x7b videoPrompt: string, keyframeEditPrompt?: string \x7d`. -/
structure DerivedPrompts where
  videoPrompt : String
  keyframeEditPrompt : Option String
deriving DecidableEq, Repr

/-- The prompt template literal of `getVideoGenerationPrompts`
(src/services/geminiService.ts lines 72-80): item 2 is inserted only when
`needsEditPrompt` is true. -/
def videoGenerationPromptsRequest (script : Script) (needsEditPrompt : Bool) : String :=
  "\n    Based on the following script, create one or two things:\n    1. A concise, descriptive prompt for a video generation AI (VEO 2.0) to create a single, cohesive video that tells the story of the script. This prompt should describe the visual style, pacing, key actions, and overall mood.\n    " ++
  (if needsEditPrompt then
    "2. A short, creative prompt for an image editing AI (Nano Banana) to modify a base image to become a representative keyframe for the video. This prompt should describe what to add or change to capture the video's essence."
   else "") ++
  "\n    \n    Script Title: \"" ++ script.title ++
  "\"\n    Script Logline: \"" ++ script.logline ++
  "\"\n    Full Script: \"" ++ script.fullScript ++ "\"\n    "

/-- `getVideoGenerationPrompts` (src/services/geminiService.ts lines 72-101):
one text-generation call whose request carries `videoGenerationPromptsRequest`
and `promptsResponseSchema needsEditPrompt`; `callResult` models the call plus
`JSON.parse` of its response text.  Returns (request prompt, requested schema,
parsed result). -/
def getVideoGenerationPrompts (script : Script) (needsEditPrompt : Bool)
    (callResult : Except String DerivedPrompts) :
    String × ResponseSchema × Except String DerivedPrompts :=
  (videoGenerationPromptsRequest script needsEditPrompt,
   promptsResponseSchema needsEditPrompt,
   callResult)

/-! ## Outgoing external calls -/

/-- One outgoing call to an external generative capability, with the
arguments the source passes to it (used to state which calls a run makes). -/
inductive CallEvent where
  /-- `getVideoGenerationPrompts script needsEditPrompt` was invoked. -/
  | derivePrompts (needsEditPrompt : Bool)
  /-- The image-edit call of `generateKeyframeWithEdit`:
  base image media type, base image bytes, edit prompt. -/
  | editImage (mimeType : String) (base64 : String) (editPrompt : String)
  /-- The free-text prompt-generation call of `generateInitialKeyframe`. -/
  | keyframePromptGen (request : String)
  /-- The `generateImages` call: image prompt and the aspect ratio passed. -/
  | generateImages (prompt : String) (ratio : String)
  /-- The `generateVideos` submission: video prompt, image bytes, media type. -/
  | submitVideo (videoPrompt : String) (imageBytes : String) (mimeType : String)
  /-- The authenticated download fetch of the orchestrator, with its URL. -/
  | fetchDownload (url : String)
deriving DecidableEq, Repr

/-! ## KeyframeSynthesizer: edit path (`generateKeyframeWithEdit`) -/

/-- An `inlineData` payload of a response part: the image bytes and the
media type the model attached to them (the source reads only `.data`). -/
structure InlineData where
  data : String
  mimeType : String
deriving DecidableEq, Repr

/-- One part of an image-edit response candidate's `content.parts`. -/
structure ResponsePart where
  inlineData : Option InlineData
  text : Option String
deriving DecidableEq, Repr

/-- The `for (const part of ...parts)` scan in `generateKeyframeWithEdit`:
the first part carrying `inlineData`, if any. -/
def firstInlineData : List ResponsePart → Option InlineData
  | [] => none
  | part :: rest =>
    match part.inlineData with
    | some d => some d
    | none => firstInlineData rest

/-- `generateKeyframeWithEdit` (src/services/geminiService.ts lines 103-123):
sends the base image's bytes and media type with the edit prompt, then
returns the `data` of the first `inlineData` part of the first candidate.
`response` models the call: a rejection, or the list of candidates (each a
parts list).  An empty candidate list makes the source throw a TypeError
while reading `candidates[0].content`.  Returns the emitted call event and
the outcome. -/
def generateKeyframeWithEdit (baseImage : InspirationFile) (editPrompt : String)
    (response : Except String (List (List ResponsePart))) :
    List CallEvent × Except String String :=
  ([CallEvent.editImage baseImage.mimeType baseImage.base64 editPrompt],
   match response with
   | .error e => .error e
   | .ok [] =>
       .error "TypeError: Cannot read properties of undefined (reading 'content')"
   | .ok (parts :: _) =>
     match firstInlineData parts with
     | some d => .ok d.data
     | none => .error "Nano Banana model did not return an image.")

/-! ## KeyframeSynthesizer: synthesis path (`generateInitialKeyframe`) -/

/-- The prompt sent by `generateInitialKeyframe`'s first (free-text)
text-generation call (src/services/geminiService.ts lines 126-134). -/
def keyframeImagePromptRequest (script : Script) (aspectRatio : String) : String :=
  "Based on the following script, create a single, concise, and highly descriptive prompt for an image generation AI (Imagen 4.0) to create a beautiful and representative keyframe image. The prompt should capture the core visual essence, style, and mood of the story. The aspect ratio should be " ++
  aspectRatio ++
  ".\n        \n        Script Title: \"" ++ script.title ++
  "\"\n        Script Logline: \"" ++ script.logline ++
  "\"\n        Full Script: \"" ++ script.fullScript ++
  "\"\n        \n        The final output should be just the prompt text, nothing else."

/-- The allow-list `validAspectRatios` of `generateInitialKeyframe`. -/
def validAspectRatios : List String := ["1:1", "3:4", "4:3", "9:16", "16:9"]

/-- The coercion `validAspectRatios.includes(aspectRatio) ? aspectRatio : '16:9'`
(src/services/geminiService.ts line 138). -/
def validatedAspectRatio (aspectRatio : String) : String :=
  if aspectRatio ∈ validAspectRatios then aspectRatio else "16:9"

/-- `generateInitialKeyframe` (src/services/geminiService.ts lines 125-156):
a free-text prompt-generation call (`promptGenResp` models its response
text), then a one-image synthesis call at the validated aspect ratio with
PNG output (`imagesResp` models its `generatedImages` bytes list; an empty
list is the "Imagen model did not return an image." failure).  Returns the
emitted call events and (image bytes, media type): the media type of a
success is the literal 'image/png'. -/
def generateInitialKeyframe (script : Script) (aspectRatio : String)
    (promptGenResp : Except String String)
    (imagesResp : Except String (List String)) :
    List CallEvent × Except String (String × String) :=
  let request := keyframeImagePromptRequest script aspectRatio
  match promptGenResp with
  | .error e => ([CallEvent.keyframePromptGen request], .error e)
  | .ok text =>
    let imagePrompt := text.trim
    let ratio := validatedAspectRatio aspectRatio
    let events := [CallEvent.keyframePromptGen request,
                   CallEvent.generateImages imagePrompt ratio]
    match imagesResp with
    | .error e => (events, .error e)
    | .ok [] => (events, .error "Imagen model did not return an image.")
    | .ok (imageBytes :: _) => (events, .ok (imageBytes, "image/png"))

/-! ## VideoSynthesizer: `generateVideo` -/

/-- A long-running video operation as the source observes it: the `done`
flag and the flattened optional chain
`operation.response?.generatedVideos?.[0]?.video?.uri`. -/
structure Operation where
  done : Bool
  uri : Option String
deriving DecidableEq, Repr

/-- The fixed poll delay (milliseconds) of `generateVideo`'s wait:
`setTimeout(resolve, 10000)`. -/
def pollIntervalMilliseconds : Nat := 10000

/-- The `while (!operation.done)` loop of `generateVideo`
(src/services/geminiService.ts lines 171-174) run against a finite trace of
`getVideosOperation` outcomes: if the current operation is done the loop
exits with it; otherwise the next poll outcome is consumed (a rejection
propagates as a thrown error).  `none` means the trace was exhausted with
the flag still unset: within these observations the loop has not returned. -/
def pollLoop (operation : Operation)
    (pollResps : List (Except String Operation)) :
    Option (Except String Operation) :=
  if operation.done then some (.ok operation)
  else
    match pollResps with
    | [] => none
    | (Except.error e) :: _ => some (.error e)
    | (Except.ok next) :: rest => pollLoop next rest

/-- `generateVideo` (src/services/geminiService.ts lines 158-187): submits
one video job (`submitResp` models `ai.models.generateVideos`), polls with
`pollLoop`, then reads the download link from the completed operation;
a missing link is the "Video generation did not produce a download link."
failure.  Returns the emitted call event and the outcome; `none` means the
poll loop is still running after the whole observed trace. -/
def generateVideo (videoPrompt : String) (keyframeImageBase64 : String)
    (mimeType : String) (submitResp : Except String Operation)
    (pollResps : List (Except String Operation)) :
    List CallEvent × Option (Except String String) :=
  ([CallEvent.submitVideo videoPrompt keyframeImageBase64 mimeType],
   match submitResp with
   | .error e => some (.error e)
   | .ok op0 =>
     match pollLoop op0 pollResps with
     | none => none
     | some (.error e) => some (.error e)
     | some (.ok operation) =>
       match operation.uri with
       | none => some (.error "Video generation did not produce a download link.")
       | some downloadLink => some (.ok downloadLink))

/-! ## PipelineOrchestrator: `generateVideoFromScript` -/

/-- The download fetch's observable response: `ok`, `statusText`, and the
object URL `URL.createObjectURL(videoBlob)` would yield for its blob. -/
structure FetchResp where
  ok : Bool
  statusText : String
  blobUrl : String
deriving DecidableEq, Repr

/-- The external world of one `generateVideoFromScript` run: the outcome of
each remote call it may make, in the source's order.  `deriveResult` models
the call + `JSON.parse` of `getVideoGenerationPrompts` (made once per run,
with `needsEditPrompt` fixed by the branch). -/
structure Env where
  apiKey : String
  deriveResult : Except String DerivedPrompts
  editResponse : Except String (List (List ResponsePart))
  keyframePromptResp : Except String String
  imagesResp : Except String (List String)
  submitResp : Except String Operation
  pollResps : List (Except String Operation)
  fetchResp : Except String FetchResp
deriving Repr

/-- The value `generateVideoFromScript` resolves with. -/
structure PipelineResult where
  videoUrl : String
  keyframeUrl : String
deriving DecidableEq, Repr

/-- Everything observable about one orchestrator run: the progress messages
passed to `updateLoadingMessage` in order, the outgoing calls in order, and
the outcome (`none` while the poll loop is still running: the promise has
neither resolved nor rejected). -/
structure RunOut where
  messages : List String
  calls : List CallEvent
  result : Option (Except String PipelineResult)
deriving Repr

/-- The error message of the orchestrator's catch block. -/
def pipelineErrorMsg : String := "Failed to generate the final video."

/-- The common tail of both branches of `generateVideoFromScript`
(src/services/geminiService.ts lines 218-231): report the VEO progress
message, consume the outcome `gv` of the `generateVideo` call the
orchestrator makes here, report the download message, fetch
`videoApiUrl&key=API_KEY`, and on an `ok` response assemble the result with
`videoUrl = URL.createObjectURL(blob)` and
`keyframeUrl = data:mimeType;base64,bytes`. -/
def finishVideo (env : Env) (keyframeBase64 : String)
    (keyframeMimeType : String)
    (gv : List CallEvent × Option (Except String String))
    (messages : List String) (calls : List CallEvent) : RunOut :=
  let messages1 := messages ++
    ["Generating video with VEO 2.0 (this may take several minutes)..."]
  let calls1 := calls ++ gv.1
  match gv.2 with
  | none => ⟨messages1, calls1, none⟩
  | some (.error e) => ⟨messages1, calls1, some (.error e)⟩
  | some (.ok videoApiUrl) =>
    let messages2 := messages1 ++ ["Downloading generated video..."]
    let calls2 := calls1 ++
      [CallEvent.fetchDownload (videoApiUrl ++ "&key=" ++ env.apiKey)]
    match env.fetchResp with
    | .error e => ⟨messages2, calls2, some (.error e)⟩
    | .ok resp =>
      if resp.ok then
        ⟨messages2, calls2,
         some (.ok ⟨resp.blobUrl,
                    "data:" ++ keyframeMimeType ++ ";base64," ++ keyframeBase64⟩)⟩
      else
        ⟨messages2, calls2,
         some (.error ("Failed to download video: " ++ resp.statusText))⟩

/-- The body of `generateVideoFromScript`'s try block
(src/services/geminiService.ts lines 195-231).  The edit branch is taken
exactly when `inspirationImages` is non-empty; it fixes the keyframe media
type to the first inspiration image's, derives prompts with
`needsEditPrompt = true`, reports the editing message, and only then guards
`if (!prompts.keyframeEditPrompt)` (false for `undefined` and for the empty
string) before making the edit call.  The other branch synthesizes a
keyframe from the script, then derives prompts with
`needsEditPrompt = false`. -/
def generateVideoFromScriptTry (script : Script) (userInput : UserInput)
    (env : Env) : RunOut :=
  match userInput.inspirationImages with
  | inspirationImage :: _ =>
    let keyframeMimeType := inspirationImage.mimeType
    let messages1 := ["Developing creative prompts for AI models..."]
    let calls1 := [CallEvent.derivePrompts true]
    match (getVideoGenerationPrompts script true env.deriveResult).2.2 with
    | .error e => ⟨messages1, calls1, some (.error e)⟩
    | .ok prompts =>
      let messages2 := messages1 ++
        ["Editing inspiration image to create a keyframe..."]
      match prompts.keyframeEditPrompt with
      | none =>
          ⟨messages2, calls1,
           some (.error "Failed to generate a keyframe editing prompt.")⟩
      | some editPrompt =>
        if editPrompt = "" then
          ⟨messages2, calls1,
           some (.error "Failed to generate a keyframe editing prompt.")⟩
        else
          let ek := generateKeyframeWithEdit inspirationImage editPrompt
            env.editResponse
          match ek.2 with
          | .error e => ⟨messages2, calls1 ++ ek.1, some (.error e)⟩
          | .ok keyframeBase64 =>
            finishVideo env keyframeBase64 keyframeMimeType
              (generateVideo prompts.videoPrompt keyframeBase64 keyframeMimeType
                env.submitResp env.pollResps)
              messages2 (calls1 ++ ek.1)
  | [] =>
    let messages1 := ["Generating a keyframe image from your script..."]
    let ik := generateInitialKeyframe script userInput.aspectRatio
      env.keyframePromptResp env.imagesResp
    match ik.2 with
    | .error e => ⟨messages1, ik.1, some (.error e)⟩
    | .ok (keyframeBase64, keyframeMimeType) =>
      let messages2 := messages1 ++ ["Developing a video prompt from your script..."]
      let calls2 := ik.1 ++ [CallEvent.derivePrompts false]
      match (getVideoGenerationPrompts script false env.deriveResult).2.2 with
      | .error e => ⟨messages2, calls2, some (.error e)⟩
      | .ok prompts =>
        finishVideo env keyframeBase64 keyframeMimeType
          (generateVideo prompts.videoPrompt keyframeBase64 keyframeMimeType
            env.submitResp env.pollResps)
          messages2 calls2

/-- `generateVideoFromScript` (src/services/geminiService.ts lines 189-236):
the try body wrapped in the catch that logs the specific cause and rethrows
one error with message `pipelineErrorMsg`. -/
def generateVideoFromScript (script : Script) (userInput : UserInput)
    (env : Env) : RunOut :=
  let inner := generateVideoFromScriptTry script userInput env
  { messages := inner.messages,
    calls := inner.calls,
    result := inner.result.map (fun r =>
      match r with
      | .ok v => .ok v
      | .error _ => .error pipelineErrorMsg) }

/-! ## Claims -/

/-- C1 (counterexample): the claim says the requested schema lists
`keyframeEditPrompt` as a required field when `needsEditPrompt` is true; in
the code the `required` list is always the literal `["videoPrompt"]`, so at
the concrete input `needsEditPrompt = true` the field is not required. -/
theorem promptsSchema_keyframeEdit_never_required :
    "keyframeEditPrompt" ∉ (promptsResponseSchema true).required := by
  decide

/-- C1 (amended): `getVideoGenerationPrompts`'s requested schema always has
`required = ["videoPrompt"]` (so `videoPrompt` is required and
`keyframeEditPrompt` never is); `keyframeEditPrompt` appears among the
schema's properties exactly when `needsEditPrompt` is true, and when
`needsEditPrompt` is false it appears nowhere in the schema. -/
theorem promptsResponseSchema_spec (needsEditPrompt : Bool) :
    (promptsResponseSchema needsEditPrompt).required = ["videoPrompt"]
    ∧ ((∃ p ∈ (promptsResponseSchema needsEditPrompt).properties,
          p.name = "keyframeEditPrompt") ↔ needsEditPrompt = true)
    ∧ (∀ p ∈ (promptsResponseSchema false).properties,
        p.name ≠ "keyframeEditPrompt")
    ∧ "keyframeEditPrompt" ∉ (promptsResponseSchema false).required := by
  cases needsEditPrompt <;> decide

/-- C5: the aspect ratio handed to the image-synthesis call inside
`generateInitialKeyframe` is always a member of the allow-list
`{1:1, 3:4, 4:3, 9:16, 16:9}`: a member is passed through unchanged and any
other value is replaced by `16:9`; the coercion never raises an error (it
is total, and every `generateImages` call event the function emits carries
exactly the coerced value). -/
theorem generateInitialKeyframe_aspectRatio_policy (script : Script)
    (aspectRatio : String) (promptGenResp : Except String String)
    (imagesResp : Except String (List String)) :
    validatedAspectRatio aspectRatio ∈ validAspectRatios
    ∧ (aspectRatio ∈ validAspectRatios →
        validatedAspectRatio aspectRatio = aspectRatio)
    ∧ (aspectRatio ∉ validAspectRatios →
        validatedAspectRatio aspectRatio = "16:9")
    ∧ (∀ e ∈ (generateInitialKeyframe script aspectRatio promptGenResp imagesResp).1,
        ∀ p a, e = CallEvent.generateImages p a →
          a = validatedAspectRatio aspectRatio) := by
  refine ⟨?_, ?_, ?_, ?_⟩
  · by_cases h : aspectRatio ∈ validAspectRatios
    · simp [validatedAspectRatio, h]
    · simp only [validatedAspectRatio, h, if_false]
      decide
  · intro h
    simp [validatedAspectRatio, h]
  · intro h
    simp [validatedAspectRatio, h]
  · intro e he p a hea
    subst hea
    cases promptGenResp with
    | error _ => simp [generateInitialKeyframe] at he
    | ok text =>
      cases imagesResp with
      | error _ =>
          simp [generateInitialKeyframe] at he
          exact he.2
      | ok images =>
        cases images with
        | nil =>
            simp [generateInitialKeyframe] at he
            exact he.2
        | cons b rest =>
            simp [generateInitialKeyframe] at he
            exact he.2

/-- C6: `generateScripts` raises an error exactly when the text-generation
call or the JSON parse of its response fails, the error always carries the
message "Failed to generate scripts from the idea.", and a successfully
parsed response with zero script candidates (a missing `scripts` array or
an empty one) is returned as the empty list, not as an error. -/
theorem generateScripts_error_iff (userInput : UserInput)
    (callResult : ScriptsCallResult) :
    ((∃ m, (generateScripts userInput callResult).2 = Except.error m)
        ↔ ((∃ e, callResult = ScriptsCallResult.callError e)
            ∨ (∃ e, callResult = ScriptsCallResult.parseError e)))
    ∧ (∀ m, (generateScripts userInput callResult).2 = Except.error m →
        m = scriptGenErrorMsg)
    ∧ (generateScripts userInput (ScriptsCallResult.parsed none)).2 = Except.ok []
    ∧ (generateScripts userInput
        (ScriptsCallResult.parsed (some []))).2 = Except.ok [] := by
  refine ⟨?_, ?_, rfl, rfl⟩
  · cases callResult <;> simp [generateScripts]
  · intro m hm
    cases callResult <;> simp [generateScripts] at hm <;> simp [hm]

/-- C9: the prompt `generateScripts` sends to the text-generation capability
does not depend on the inspiration audio's raw bytes: replacing the audio's
`base64` payload by any other value (a no-op when no audio was supplied)
leaves the constructed prompt identical. -/
theorem generateScripts_prompt_ignores_audio_bytes (userInput : UserInput)
    (b : String) (callResult : ScriptsCallResult) :
    (generateScripts
        { userInput with
            inspirationAudio := userInput.inspirationAudio.map
              (fun audio => { audio with base64 := b }) }
        callResult).1
      = (generateScripts userInput callResult).1 := by
  cases h : userInput.inspirationAudio <;>
    simp [generateScripts, buildScriptsPrompt, h]

/-- A successful exit of the poll loop carries an operation whose `done`
flag was observed true. -/
theorem pollLoop_ok_done (pollResps : List (Except String Operation)) :
    ∀ op o, pollLoop op pollResps = some (Except.ok o) → o.done = true := by
  induction pollResps with
  | nil =>
    intro op o h
    rw [pollLoop.eq_def] at h
    by_cases hd : op.done = true
    · rw [if_pos hd] at h
      obtain rfl : op = o := by simpa using h
      exact hd
    · rw [if_neg hd] at h
      exact absurd h (by simp)
  | cons r rest ih =>
    intro op o h
    rw [pollLoop.eq_def] at h
    by_cases hd : op.done = true
    · rw [if_pos hd] at h
      obtain rfl : op = o := by simpa using h
      exact hd
    · rw [if_neg hd] at h
      cases r with
      | error e => exact absurd h (by simp)
      | ok next => exact ih next o h

/-- While every poll observation is a successfully fetched operation whose
`done` flag is still false, the poll loop consumes the whole trace without
exiting. -/
theorem pollLoop_not_done_none (pollResps : List (Except String Operation)) :
    ∀ op, op.done = false →
    (∀ r ∈ pollResps, ∃ o, r = Except.ok o ∧ o.done = false) →
    pollLoop op pollResps = none := by
  induction pollResps with
  | nil =>
    intro op hd _
    simp [pollLoop, hd]
  | cons r rest ih =>
    intro op hd hall
    obtain ⟨next, rfl, hnd⟩ := hall r (by simp)
    rw [pollLoop.eq_def, if_neg (by simp [hd])]
    exact ih next hnd (fun r hr => hall r (by simp [hr]))

/-- C2: `generateVideo` yields a video locator only after the poll loop has
observed an operation whose `done` flag is true (and the locator is that
operation's link); conversely, while every observed operation still has
`done = false`, the function does not return at all — it neither succeeds
nor fails, however many polls (each preceded by the fixed
`pollIntervalMilliseconds` wait) the trace contains. -/
theorem generateVideo_gated_on_done (videoPrompt : String)
    (keyframeImageBase64 : String) (mimeType : String)
    (submitResp : Except String Operation)
    (pollResps : List (Except String Operation)) :
    (∀ downloadLink,
      (generateVideo videoPrompt keyframeImageBase64 mimeType submitResp
          pollResps).2 = some (Except.ok downloadLink) →
      ∃ op0 opF, submitResp = Except.ok op0
        ∧ pollLoop op0 pollResps = some (Except.ok opF)
        ∧ opF.done = true
        ∧ opF.uri = some downloadLink)
    ∧ (∀ op0, submitResp = Except.ok op0 → op0.done = false →
        (∀ r ∈ pollResps, ∃ o, r = Except.ok o ∧ o.done = false) →
        (generateVideo videoPrompt keyframeImageBase64 mimeType submitResp
            pollResps).2 = none) := by
  constructor
  · intro downloadLink h
    cases hs : submitResp with
    | error e => simp [generateVideo, hs] at h
    | ok op0 =>
      cases hp : pollLoop op0 pollResps with
      | none => simp [generateVideo, hs, hp] at h
      | some r =>
        cases r with
        | error e => simp [generateVideo, hs, hp] at h
        | ok opF =>
          cases hu : opF.uri with
          | none => simp [generateVideo, hs, hp, hu] at h
          | some link =>
            simp only [generateVideo, hs, hp, hu, Option.some.injEq] at h
            refine ⟨op0, opF, rfl, hp,
              pollLoop_ok_done pollResps op0 opF hp, ?_⟩
            rw [hu]
            exact congrArg some (by simpa using h)
  · intro op0 hs hd hall
    simp [generateVideo, hs, pollLoop_not_done_none pollResps op0 hd hall]

/-- `finishVideo` only appends to the call list it is given. -/
theorem mem_finishVideo_calls (env : Env) (kb km : String)
    (gv : List CallEvent × Option (Except String String))
    (messages : List String) (calls : List CallEvent) (e : CallEvent)
    (he : e ∈ calls) : e ∈ (finishVideo env kb km gv messages calls).calls := by
  obtain ⟨gvEvents, gvResult⟩ := gv
  unfold finishVideo
  cases gvResult with
  | none => simp [he]
  | some r =>
    cases r with
    | error err => simp [he]
    | ok u =>
      cases hf : env.fetchResp with
      | error err => simp [hf, he]
      | ok resp => by_cases hok : resp.ok <;> simp [hf, hok, he]

/-- When the `generateVideo` outcome's call list is the one submission
event, every call of `finishVideo`'s output is an input call, that
submission, or the download fetch. -/
theorem finishVideo_calls_cases (env : Env) (kb km : String)
    (gv : List CallEvent × Option (Except String String))
    (messages : List String) (calls : List CallEvent) (e : CallEvent)
    (a b c : String) (hgv : gv.1 = [CallEvent.submitVideo a b c])
    (he : e ∈ (finishVideo env kb km gv messages calls).calls) :
    e ∈ calls ∨ e = CallEvent.submitVideo a b c
      ∨ (∃ u, e = CallEvent.fetchDownload u) := by
  obtain ⟨gvEvents, gvResult⟩ := gv
  simp only at hgv
  subst hgv
  unfold finishVideo at he
  cases gvResult with
  | none =>
    simp at he
    rcases he with he | he <;> simp [he]
  | some r =>
    cases r with
    | error err =>
      simp at he
      rcases he with he | he <;> simp [he]
    | ok u =>
      cases hf : env.fetchResp with
      | error err =>
        simp [hf] at he
        rcases he with he | he | he <;> simp [he]
      | ok resp =>
        by_cases hok : resp.ok <;>
          · simp [hf, hok] at he
            rcases he with he | he | he <;> simp [he]

/-- A successful `finishVideo` result's keyframe reference is the data URL
built from exactly the media type and bytes `finishVideo` was given. -/
theorem finishVideo_result_ok (env : Env) (kb km : String)
    (gv : List CallEvent × Option (Except String String))
    (messages : List String) (calls : List CallEvent) (r : PipelineResult)
    (h : (finishVideo env kb km gv messages calls).result
        = some (Except.ok r)) :
    r.keyframeUrl = "data:" ++ km ++ ";base64," ++ kb := by
  obtain ⟨gvEvents, gvResult⟩ := gv
  unfold finishVideo at h
  cases gvResult with
  | none => simp at h
  | some res =>
    cases res with
    | error err => simp at h
    | ok u =>
      cases hf : env.fetchResp with
      | error err => simp [hf] at h
      | ok resp =>
        by_cases hok : resp.ok
        · simp [hf, hok] at h
          rw [← h]
        · simp [hf, hok] at h

/-- Every call event `generateInitialKeyframe` emits is its prompt-
generation call or its image-synthesis call. -/
theorem generateInitialKeyframe_events (script : Script) (aspectRatio : String)
    (pg : Except String String) (ir : Except String (List String))
    (e : CallEvent)
    (he : e ∈ (generateInitialKeyframe script aspectRatio pg ir).1) :
    (∃ q, e = CallEvent.keyframePromptGen q)
      ∨ (∃ p a, e = CallEvent.generateImages p a) := by
  unfold generateInitialKeyframe at he
  cases pg with
  | error err => simp at he; simp [he]
  | ok text =>
    cases ir with
    | error err =>
      simp at he
      rcases he with he | he <;> simp [he]
    | ok images =>
      cases images with
      | nil =>
        simp at he
        rcases he with he | he <;> simp [he]
      | cons b rest =>
        simp at he
        rcases he with he | he <;> simp [he]

/-- A successful `generateInitialKeyframe` always reports the media type
'image/png'. -/
theorem generateInitialKeyframe_ok_mime (script : Script) (aspectRatio : String)
    (pg : Except String String) (ir : Except String (List String))
    (b m : String)
    (h : (generateInitialKeyframe script aspectRatio pg ir).2
        = Except.ok (b, m)) :
    m = "image/png" := by
  unfold generateInitialKeyframe at h
  cases pg with
  | error err => simp at h
  | ok text =>
    cases ir with
    | error err => simp at h
    | ok images =>
      cases images with
      | nil => simp at h
      | cons bytes rest =>
        simp at h
        exact h.2.symm

/-- C3: any completed `generateVideoFromScript` run either resolves with a
full `PipelineResult` or rejects with the single error message
"Failed to generate the final video."; and whenever the inner try body
fails — with whatever specific cause, at whatever step — the caller
receives exactly that one generic error, so no partial result (in
particular no keyframe) is exposed on failure. -/
theorem generateVideoFromScript_uniform_error (script : Script)
    (userInput : UserInput) (env : Env) :
    ((generateVideoFromScript script userInput env).result = none
      ∨ (∃ v, (generateVideoFromScript script userInput env).result
            = some (Except.ok v))
      ∨ (generateVideoFromScript script userInput env).result
            = some (Except.error pipelineErrorMsg))
    ∧ (∀ e, (generateVideoFromScriptTry script userInput env).result
          = some (Except.error e) →
        (generateVideoFromScript script userInput env).result
          = some (Except.error pipelineErrorMsg)) := by
  constructor
  · cases h : (generateVideoFromScriptTry script userInput env).result with
    | none => exact Or.inl (by simp [generateVideoFromScript, h])
    | some r =>
      cases r with
      | ok v =>
        exact Or.inr (Or.inl ⟨v, by simp [generateVideoFromScript, h]⟩)
      | error e =>
        exact Or.inr (Or.inr (by simp [generateVideoFromScript, h]))
  · intro e he
    simp [generateVideoFromScript, he]

/-- C4: on the edit branch (non-empty inspiration images), a derived-prompts
response whose `keyframeEditPrompt` is absent or the empty string makes the
pipeline fail (with the orchestrator's single error) and the run performs
no further call at all: in particular the image-edit call is never made
without a non-empty edit prompt. -/
theorem missing_editPrompt_fatal (script : Script) (userInput : UserInput)
    (env : Env) (img : InspirationFile) (rest : List InspirationFile)
    (prompts : DerivedPrompts)
    (himg : userInput.inspirationImages = img :: rest)
    (hres : env.deriveResult = Except.ok prompts)
    (hfalsy : prompts.keyframeEditPrompt = none
      ∨ prompts.keyframeEditPrompt = some "") :
    (generateVideoFromScript script userInput env).result
        = some (Except.error pipelineErrorMsg)
    ∧ (generateVideoFromScript script userInput env).calls
        = [CallEvent.derivePrompts true] := by
  rcases hfalsy with hf | hf <;>
    simp [generateVideoFromScript, generateVideoFromScriptTry,
      getVideoGenerationPrompts, himg, hres, hf]

/-- A sample script used to instantiate the orchestrator theorems. -/
def sampleScript : Script := ⟨"Title", "Logline", "Full script"⟩

/-- A sample inspiration image (note its media type is not PNG). -/
def sampleImage : InspirationFile :=
  ⟨"inspirationBytes", "image/jpeg", "sunset.jpg", "warm sunset tones",
   "blob:preview"⟩

/-- A sample brief holding one inspiration image. -/
def sampleEditInput : UserInput :=
  ⟨"a story", [sampleImage], [], none, "30", "Nostalgic", "9:16", "everyone"⟩

/-- A sample successful download response. -/
def sampleFetchResp : FetchResp := ⟨true, "OK", "blob:video"⟩

/-- An environment whose derived prompts lack `keyframeEditPrompt`. -/
def envMissingEditPrompt : Env :=
  ⟨"KEY", .ok ⟨"video prompt", none⟩, .ok [], .ok "kf prompt", .ok [],
   .ok ⟨false, none⟩, [.ok ⟨true, some "https://dl/video"⟩],
   .ok sampleFetchResp⟩

/-- Witness for the C4 theorem at a concrete brief and environment. -/
theorem missing_editPrompt_fatal_witness :
    (generateVideoFromScript sampleScript sampleEditInput
        envMissingEditPrompt).result
      = some (Except.error pipelineErrorMsg)
    ∧ (generateVideoFromScript sampleScript sampleEditInput
        envMissingEditPrompt).calls
      = [CallEvent.derivePrompts true] :=
  missing_editPrompt_fatal sampleScript sampleEditInput envMissingEditPrompt
    sampleImage [] ⟨"video prompt", none⟩ rfl rfl (Or.inl rfl)

/-- C10: on an edit-branch run whose derived `keyframeEditPrompt` is absent
or empty, the failing run has nonetheless already reported the
image-editing stage: its progress messages are exactly the prompts message
followed by the editing message, even though the run then fails on the
missing edit prompt. -/
theorem edit_message_reported_before_check (script : Script)
    (userInput : UserInput) (env : Env) (img : InspirationFile)
    (rest : List InspirationFile) (prompts : DerivedPrompts)
    (himg : userInput.inspirationImages = img :: rest)
    (hres : env.deriveResult = Except.ok prompts)
    (hfalsy : prompts.keyframeEditPrompt = none
      ∨ prompts.keyframeEditPrompt = some "") :
    (generateVideoFromScript script userInput env).messages
      = ["Developing creative prompts for AI models...",
         "Editing inspiration image to create a keyframe..."]
    ∧ (generateVideoFromScript script userInput env).result
        = some (Except.error pipelineErrorMsg) := by
  rcases hfalsy with hf | hf <;>
    simp [generateVideoFromScript, generateVideoFromScriptTry,
      getVideoGenerationPrompts, himg, hres, hf]

/-- An environment whose derived `keyframeEditPrompt` is the empty string. -/
def envEmptyEditPrompt : Env :=
  ⟨"KEY", .ok ⟨"video prompt", some ""⟩, .ok [], .ok "kf prompt", .ok [],
   .ok ⟨false, none⟩, [.ok ⟨true, some "https://dl/video"⟩],
   .ok sampleFetchResp⟩

/-- Witness for the C10 theorem at a concrete brief and environment. -/
theorem edit_message_reported_before_check_witness :
    (generateVideoFromScript sampleScript sampleEditInput
        envEmptyEditPrompt).messages
      = ["Developing creative prompts for AI models...",
         "Editing inspiration image to create a keyframe..."]
    ∧ (generateVideoFromScript sampleScript sampleEditInput
        envEmptyEditPrompt).result
      = some (Except.error pipelineErrorMsg) :=
  edit_message_reported_before_check sampleScript sampleEditInput
    envEmptyEditPrompt sampleImage [] ⟨"video prompt", some ""⟩ rfl rfl
    (Or.inr rfl)

/-- On a brief with at least one inspiration image, the try body always
performs the prompt-derivation call with `needsEditPrompt = true`. -/
theorem try_calls_edit_head (script : Script) (userInput : UserInput)
    (env : Env) (img : InspirationFile) (rest : List InspirationFile)
    (himg : userInput.inspirationImages = img :: rest) :
    CallEvent.derivePrompts true
      ∈ (generateVideoFromScriptTry script userInput env).calls := by
  simp only [generateVideoFromScriptTry, himg, getVideoGenerationPrompts]
  cases hdr : env.deriveResult with
  | error e => simp
  | ok prompts =>
    simp only [hdr]
    cases hke : prompts.keyframeEditPrompt with
    | none => simp [hke]
    | some p =>
      by_cases hp : p = ""
      · simp [hp]
      · dsimp only
        rw [if_neg hp]
        cases hed : env.editResponse with
        | error e => simp [generateKeyframeWithEdit, hed]
        | ok cands =>
          cases cands with
          | nil => simp [generateKeyframeWithEdit, hed]
          | cons c cs =>
            cases hfi : firstInlineData c with
            | none => simp [generateKeyframeWithEdit, hed, hfi]
            | some d =>
              simp only [generateKeyframeWithEdit, hed, hfi]
              exact mem_finishVideo_calls _ _ _ _ _ _ _ (by simp)

/-- On a brief with no inspiration image, the try body never performs a
prompt-derivation call with `needsEditPrompt = true`. -/
theorem try_calls_no_edit (script : Script) (userInput : UserInput)
    (env : Env) (himg : userInput.inspirationImages = []) :
    CallEvent.derivePrompts true
      ∉ (generateVideoFromScriptTry script userInput env).calls := by
  simp only [generateVideoFromScriptTry, himg, getVideoGenerationPrompts]
  cases hpg : env.keyframePromptResp with
  | error e => simp [generateInitialKeyframe, hpg]
  | ok text =>
    cases him : env.imagesResp with
    | error e => simp [generateInitialKeyframe, hpg, him]
    | ok imgs =>
      cases imgs with
      | nil => simp [generateInitialKeyframe, hpg, him]
      | cons b bs =>
        simp only [generateInitialKeyframe, hpg, him]
        cases hdr : env.deriveResult with
        | error e => simp [hdr]
        | ok prompts =>
          simp only [hdr]
          intro hmem
          rcases finishVideo_calls_cases _ _ _ _ _ _ _ _ _ _ rfl hmem
            with h | h | h
          · simp at h
          · simp at h
          · rcases h with ⟨u, hu⟩
            simp at hu

/-- C7: the pipeline takes the edit path — derives prompts with
`needsEditPrompt = true` — exactly when the brief's inspiration-image list
is non-empty, and the brief's inspiration videos and inspiration audio have
no effect whatsoever on the run. -/
theorem branch_selection_by_images (script : Script) (userInput : UserInput)
    (env : Env) (vids : List InspirationFile) (aud : Option InspirationFile) :
    ((CallEvent.derivePrompts true)
        ∈ (generateVideoFromScript script userInput env).calls
      ↔ userInput.inspirationImages ≠ [])
    ∧ generateVideoFromScript script
        { userInput with inspirationVideos := vids, inspirationAudio := aud }
        env
      = generateVideoFromScript script userInput env := by
  constructor
  · cases himg : userInput.inspirationImages with
    | nil =>
      simp only [himg, ne_eq, not_true_eq_false, iff_false]
      simp only [generateVideoFromScript]
      exact try_calls_no_edit script userInput env himg
    | cons img rest =>
      simp only [himg, ne_eq, reduceCtorEq, not_false_eq_true, iff_true]
      simp only [generateVideoFromScript]
      exact try_calls_edit_head script userInput env img rest himg
  · rfl

/-- C8: in any successful pipeline result the keyframe data URL carries the
media type 'image/png' when the synthesis path was taken (no inspiration
images) and the first inspiration image's original media type when the edit
path was taken — for every environment, including those in which the edit
model returned image bytes tagged with some other media type. -/
theorem keyframe_mimeType_policy (script : Script) (userInput : UserInput)
    (env : Env) (r : PipelineResult)
    (h : (generateVideoFromScript script userInput env).result
        = some (Except.ok r)) :
    ∃ keyframeBase64,
      r.keyframeUrl = "data:" ++
        (match userInput.inspirationImages with
         | [] => "image/png"
         | img :: _ => img.mimeType) ++ ";base64," ++ keyframeBase64 := by
  have hTry : (generateVideoFromScriptTry script userInput env).result
      = some (Except.ok r) := by
    cases hres : (generateVideoFromScriptTry script userInput env).result with
    | none => simp [generateVideoFromScript, hres] at h
    | some rr =>
      cases rr with
      | ok v =>
        have hv : v = r := by simpa [generateVideoFromScript, hres] using h
        subst hv
        rfl
      | error e => simp [generateVideoFromScript, hres] at h
  cases himg : userInput.inspirationImages with
  | cons img rest =>
    simp only [generateVideoFromScriptTry, himg,
      getVideoGenerationPrompts] at hTry
    cases hdr : env.deriveResult with
    | error e => simp [hdr] at hTry
    | ok prompts =>
      simp only [hdr] at hTry
      cases hke : prompts.keyframeEditPrompt with
      | none => simp [hke] at hTry
      | some p =>
        simp only [hke] at hTry
        by_cases hp : p = ""
        · simp [hp] at hTry
        · rw [if_neg hp] at hTry
          cases hed : env.editResponse with
          | error e => simp [generateKeyframeWithEdit, hed] at hTry
          | ok cands =>
            cases cands with
            | nil => simp [generateKeyframeWithEdit, hed] at hTry
            | cons c cs =>
              cases hfi : firstInlineData c with
              | none => simp [generateKeyframeWithEdit, hed, hfi] at hTry
              | some d =>
                simp only [generateKeyframeWithEdit, hed, hfi] at hTry
                exact ⟨d.data, finishVideo_result_ok _ _ _ _ _ _ _ hTry⟩
  | nil =>
    simp only [generateVideoFromScriptTry, himg,
      getVideoGenerationPrompts] at hTry
    cases hpg : env.keyframePromptResp with
    | error e => simp [generateInitialKeyframe, hpg] at hTry
    | ok text =>
      cases him : env.imagesResp with
      | error e => simp [generateInitialKeyframe, hpg, him] at hTry
      | ok imgs =>
        cases imgs with
        | nil => simp [generateInitialKeyframe, hpg, him] at hTry
        | cons b bs =>
          simp only [generateInitialKeyframe, hpg, him] at hTry
          cases hdr : env.deriveResult with
          | error e => simp [hdr] at hTry
          | ok prompts =>
            simp only [hdr] at hTry
            exact ⟨b, finishVideo_result_ok _ _ _ _ _ _ _ hTry⟩

/-- An environment for a fully successful edit-path run, in which the edit
model tags its returned bytes 'image/webp' — a media type different from
the inspiration image's 'image/jpeg'. -/
def envEditSuccess : Env :=
  ⟨"KEY", .ok ⟨"video prompt", some "add a glow"⟩,
   .ok [[⟨some ⟨"editedBytes", "image/webp"⟩, none⟩]],
   .ok "kf prompt", .ok ["pngBytes"],
   .ok ⟨false, none⟩, [.ok ⟨true, some "https://dl/video"⟩],
   .ok sampleFetchResp⟩

/-- Witness for the C8 theorem: a concrete successful edit-path run whose
keyframe data URL carries the inspiration image's 'image/jpeg', not the
edit model's 'image/webp'. -/
theorem keyframe_mimeType_policy_witness :
    ∃ keyframeBase64,
      (PipelineResult.mk "blob:video"
          "data:image/jpeg;base64,editedBytes").keyframeUrl
        = "data:" ++
          (match sampleEditInput.inspirationImages with
           | [] => "image/png"
           | img :: _ => img.mimeType) ++ ";base64," ++ keyframeBase64 :=
  keyframe_mimeType_policy sampleScript sampleEditInput envEditSuccess
    ⟨"blob:video", "data:image/jpeg;base64,editedBytes"⟩ rfl

end VideoPipeline
